import Mathlib

/-!
Verification of the txaws Route53 client core (txaws/route53/model.py and
txaws/route53/client.py) against its natural-language specification.

The Python code is shallowly embedded: element trees become an inductive
`XElem`, Python exceptions become the inductive `PyError` carried in
`Except`, Python dicts keyed by `Name` become association lists, and Python
sets of record values become `Finset Rec`.  Python `unicode` strings are
Lean `String`s.  Each definition carries a comment pointing at the source
it embeds.
-/

/-- Python exceptions raised by the embedded code paths, with the data a
reviewer needs to match them to CPython behaviour.
  * `valueErrorNotEmpty`: ValueError("Value must have length greater than 0")
    raised by the `_not_empty` validator of `Name` (model.py 25-27).
  * `valueErrorUnpack got`: the ValueError raised by tuple unpacking when the
    split value of an SOA record does not have exactly 7 tokens
    (model.py 72); `got` is the actual token count.
  * `valueErrorIntLiteral tok`: ValueError("invalid literal for int() with
    base 10: ...") raised by `int(tok)` on a non-numeric token.
  * `typeError`: TypeError raised by an attrs `instance_of` validator or by
    `int(None)` when an element text node is absent (None).
  * `attributeError`: AttributeError raised when `find` returned None and an
    attribute such as `.text`, `.find` or `.replace` is accessed on it.
  * `keyError k`: KeyError raised by a failed dict lookup, e.g.
    `RECORD_TYPES[type]` (client.py 204) or a `str.format` replacement field
    with no matching keyword argument (model.py 84).
  * `unicodeError`: UnicodeError raised by the IDNA codec in
    `Name.__str__` (model.py 34-35). -/
inductive PyError where
  | valueErrorNotEmpty
  | valueErrorUnpack (got : Nat)
  | valueErrorIntLiteral (tok : String)
  | typeError (msg : String)
  | attributeError (msg : String)
  | keyError (key : String)
  | unicodeError (msg : String)
deriving DecidableEq

/-- The spec error taxonomy (spec 7) names `InvalidNameError` for the empty
domain name rejected by `Name`; in the code this is the ValueError raised by
the `_not_empty` validator. -/
def IsInvalidNameError : PyError → Bool
  | .valueErrorNotEmpty => true
  | _ => false

/-- The spec error taxonomy (spec 7) names `MalformedRecordError` for a
record whose wire text does not match its expected shape (wrong token
count, non-integer field) or whose expected child text node is absent; in
the code these are the ValueError from tuple unpacking, the ValueError from
`int()`, the AttributeError from a missing child element, and the TypeError
from a None text node. -/
def IsMalformedRecordError : PyError → Bool
  | .valueErrorUnpack _ => true
  | .valueErrorIntLiteral _ => true
  | .typeError _ => true
  | .attributeError _ => true
  | _ => false

/-- The spec error taxonomy (spec 7) names `UnrecognizedRecordTypeError` for
a `ResourceRecordSet` Type with no registered decoding capability; in the
code this is the KeyError raised by `RECORD_TYPES[type]` (client.py 204). -/
def IsUnrecognizedRecordTypeError : PyError → Bool
  | .keyError _ => true
  | _ => false

/-- An ElementTree element: a tag, the text before the first child
(`None` when absent), and the ordered list of child elements. -/
inductive XElem where
  | mk (tag : String) (text : Option String) (children : List XElem)

def XElem.tag : XElem → String
  | .mk t _ _ => t

def XElem.text : XElem → Option String
  | .mk _ t _ => t

def XElem.children : XElem → List XElem
  | .mk _ _ c => c

/-- The children of `e` whose tag is `t`, in document order. -/
def childrenTagged (e : XElem) (t : String) : List XElem :=
  e.children.filter (fun c => c.tag == t)

/-- ElementTree `iterfind` restricted to the relative child paths the client
uses (e.g. `./ResourceRecordSets/ResourceRecordSet`): at each path segment
descend into all children carrying that tag, in document order. -/
def iterfindPath : List String → XElem → List XElem
  | [], e => [e]
  | s :: rest, e => (childrenTagged e s).flatMap (iterfindPath rest)

/-- ElementTree `find`: the first element matched by the path, if any. -/
def pyFind (segs : List String) (e : XElem) : Option XElem :=
  (iterfindPath segs e).head?

/-- Modelled from the spec: `maybe_bytes_to_unicode` from
txaws/route53/_util.py (not under src/) converts bytes to unicode text and
passes other values through; in this embedding all element text is already
unicode text, so it is the identity, passing an absent text (None)
through. -/
def maybe_bytes_to_unicode (t : Option String) : Option String := t

/-- `maybe_bytes_to_unicode(e.find(tag).text)`: AttributeError when the
child is absent (attribute access on None), otherwise the text, which may
itself be absent. -/
def findTextE (e : XElem) (tag : String) : Except PyError (Option String) :=
  match pyFind [tag] e with
  | none => .error (.attributeError "NoneType object has no attribute text")
  | some c => .ok (maybe_bytes_to_unicode c.text)

/-- Passing a possibly-None text where an attrs `instance_of(unicode)`
validator (or unicode-only operation) requires actual text: None raises
TypeError. -/
def asUnicodeArg : Option String → Except PyError String
  | none => .error (.typeError "must be unicode, not NoneType")
  | some t => .ok t

/-- Effectful map over a list in the `Except` monad, stopping at the first
error (the semantics of a Python comprehension whose body can raise). -/
def exceptMapM {α β ε : Type} (f : α → Except ε β) : List α → Except ε (List β)
  | [] => .ok []
  | x :: xs =>
    match f x with
    | .error e => .error e
    | .ok y =>
      match exceptMapM f xs with
      | .error e => .error e
      | .ok ys => .ok (y :: ys)

/-- Effectful fold over a list in the `Except` monad (the semantics of a
Python for-loop over mutable state whose body can raise). -/
def exceptFoldlM {α β ε : Type} (f : β → α → Except ε β) : β → List α → Except ε β
  | b, [] => .ok b
  | b, x :: xs =>
    match f b x with
    | .error e => .error e
    | .ok b2 => exceptFoldlM f b2 xs

theorem exceptMapM_length {α β ε : Type} (f : α → Except ε β) :
    ∀ (l : List α) (l2 : List β), exceptMapM f l = .ok l2 → l2.length = l.length := by
  intro l
  induction l with
  | nil =>
    intro l2 h
    simp only [exceptMapM] at h
    cases h
    rfl
  | cons x xs ih =>
    intro l2 h
    simp only [exceptMapM] at h
    cases hfx : f x with
    | error e => rw [hfx] at h; cases h
    | ok y =>
      rw [hfx] at h
      cases hrest : exceptMapM f xs with
      | error e => rw [hrest] at h; cases h
      | ok ys =>
        rw [hrest] at h
        cases h
        simp [ih ys hrest]

theorem exceptFoldlM_no_success {α β ε : Type} (f : β → α → Except ε β) (bad : α)
    (hbad : ∀ (b : β) (r : β), f b bad ≠ .ok r) :
    ∀ (l : List α) (b : β), bad ∈ l → ∀ (r : β), exceptFoldlM f b l ≠ .ok r := by
  intro l
  induction l with
  | nil => intro b h; cases h
  | cons x xs ih =>
    intro b hmem r
    rcases List.mem_cons.mp hmem with hx | hxs
    · rw [← hx]
      cases hfb : f b bad with
      | error e => simp [exceptFoldlM, hfb]
      | ok b2 => exact absurd hfb (hbad b b2)
    · cases hfb : f b x with
      | error e => simp [exceptFoldlM, hfb]
      | ok b2 =>
        simp only [exceptFoldlM, hfb]
        exact ih b2 hxs r

/-- The code points CPython 2.7 (Unicode 5.2 tables) treats as whitespace
(`Py_UNICODE_ISSPACE`), the set `unicode.split()` splits on: TAB through CR,
the file/group/record/unit separators U+001C-001F, SPACE, NEL U+0085,
NO-BREAK SPACE U+00A0, OGHAM SPACE U+1680, MONGOLIAN VOWEL SEPARATOR U+180E
(whitespace in Unicode 5.2), the U+2000-200A spaces, LINE and PARAGRAPH
SEPARATOR U+2028/2029, NARROW NO-BREAK SPACE U+202F, MEDIUM MATHEMATICAL
SPACE U+205F and IDEOGRAPHIC SPACE U+3000. -/
def pyWhitespaceCodes : List Nat :=
  [0x9, 0xA, 0xB, 0xC, 0xD, 0x1C, 0x1D, 0x1E, 0x1F, 0x20, 0x85, 0xA0,
   0x1680, 0x180E, 0x2000, 0x2001, 0x2002, 0x2003, 0x2004, 0x2005, 0x2006,
   0x2007, 0x2008, 0x2009, 0x200A, 0x2028, 0x2029, 0x202F, 0x205F, 0x3000]

/-- Python 2 `Py_UNICODE_ISSPACE`, used by `unicode.split()` and by the
whitespace stripping of `int()`. -/
def pyIsSpace (c : Char) : Bool :=
  pyWhitespaceCodes.contains c.toNat

/-- Split a character list on the separator predicate, keeping empty groups
(the groups between two adjacent separators). -/
def splitOnP (p : Char → Bool) : List Char → List (List Char)
  | [] => [[]]
  | c :: rest =>
    if p c then [] :: splitOnP p rest
    else
      match splitOnP p rest with
      | [] => [[c]]
      | g :: gs => (c :: g) :: gs

/-- Python `unicode.split()` with no argument: split on runs of whitespace
and drop empty tokens. -/
def pySplitWs (s : String) : List String :=
  ((splitOnP pyIsSpace s.toList).map (fun l => String.mk l)).filter (fun t => !(t == ""))

theorem pySplitWs_mem_ne_empty (s : String) : ∀ t ∈ pySplitWs s, t ≠ "" := by
  intro t ht
  have := (List.mem_filter.mp ht).2
  simp at this
  exact this

/-- The first code point of each run of ten decimal digits (category Nd,
digit values 0-9 in order) in the Unicode 5.2 tables of CPython 2.7, the
set `Py_UNICODE_TODECIMAL` maps to 0-9 when `int(unicode)` converts its
argument through `PyUnicode_EncodeDecimal`: ASCII, Arabic-Indic, Extended
Arabic-Indic, NKo, Devanagari, Bengali, Gurmukhi, Gujarati, Oriya, Tamil,
Telugu, Kannada, Malayalam, Thai, Lao, Tibetan, Myanmar, Myanmar Shan,
Khmer, Mongolian, Limbu, New Tai Lue, Tai Tham Hora, Tai Tham Tham,
Balinese, Sundanese, Lepcha, Ol Chiki, Vai, Saurashtra, Kayah Li, Javanese,
Cham, Meetei Mayek and Fullwidth digits.  (On the common narrow build,
astral-plane digits such as the mathematical digits arrive as surrogate
pairs, which `TODECIMAL` rejects, so only these Basic Multilingual Plane
runs convert.) -/
def pyDecimalRangeStarts : List Nat :=
  [0x30, 0x660, 0x6F0, 0x7C0, 0x966, 0x9E6, 0xA66, 0xAE6, 0xB66, 0xBE6,
   0xC66, 0xCE6, 0xD66, 0xE50, 0xED0, 0xF20, 0x1040, 0x1090, 0x17E0,
   0x1810, 0x1946, 0x19D0, 0x1A80, 0x1A90, 0x1B50, 0x1BB0, 0x1C40, 0x1C50,
   0xA620, 0xA8D0, 0xA900, 0xA9D0, 0xAA50, 0xABF0, 0xFF10]

/-- `Py_UNICODE_TODECIMAL`: the decimal digit value of a character, when it
has one. -/
def pyToDecimal (c : Char) : Option Nat :=
  match pyDecimalRangeStarts.find? (fun s => decide (s ≤ c.toNat) && decide (c.toNat ≤ s + 9)) with
  | some s => some (c.toNat - s)
  | none => none

/-- A character `int()` accepts inside the digit run. -/
def pyIsDecimalDigit (c : Char) : Bool :=
  (pyToDecimal c).isSome

def decDigitsToNat (ds : List Char) : Nat :=
  ds.foldl (fun acc c => acc * 10 + (pyToDecimal c).getD 0) 0

/-- Python 2 `int(s)` on a unicode string with base 10
(`PyUnicode_EncodeDecimal` then `PyInt_FromString`): optional surrounding
whitespace (any `Py_UNICODE_ISSPACE` character), an optional ASCII sign,
then at least one character carrying a decimal digit value; anything else
fails (`None` here). -/
def pyParseIntQ (s : String) : Option Int :=
  let cs := (s.toList.dropWhile pyIsSpace).reverse.dropWhile pyIsSpace |>.reverse
  match cs with
  | '+' :: ds => if ds ≠ [] ∧ ds.all pyIsDecimalDigit then some (decDigitsToNat ds) else none
  | '-' :: ds => if ds ≠ [] ∧ ds.all pyIsDecimalDigit then some (-(decDigitsToNat ds : Int)) else none
  | ds => if ds ≠ [] ∧ ds.all pyIsDecimalDigit then some (decDigitsToNat ds) else none

/-- Python `int(tok)`, raising ValueError on a non-numeric literal. -/
def pyInt (tok : String) : Except PyError Int :=
  match pyParseIntQ tok with
  | some n => .ok n
  | none => .error (.valueErrorIntLiteral tok)

/-- Python `str.replace(pat, repl)` over character lists: replace every
non-overlapping occurrence of `pat`, scanning left to right.  The `fuel`
argument only makes the recursion structural; every occurrence consumes at
least one character, so any `fuel` at least the input length gives the
replace-all semantics. -/
def replaceAll (pat repl : List Char) : Nat → List Char → List Char
  | _, [] => []
  | 0, l => l
  | fuel + 1, c :: rest =>
    if pat ≠ [] ∧ pat.isPrefixOf (c :: rest) then
      repl ++ replaceAll pat repl fuel ((c :: rest).drop pat.length)
    else
      c :: replaceAll pat repl fuel rest

def pyReplace (s pat repl : String) : String :=
  String.mk (replaceAll pat.toList repl.toList s.toList.length s.toList)

/-- The ASCII fast path of Python 2's IDNA codec (`encodings/idna.py`), the
codec invoked by `Name.__str__` (model.py 34-35): empty input encodes to
empty output; all-ASCII input is returned unchanged provided every label
before the last has length in (0, 64) and the last label has length below
64, else UnicodeError; non-ASCII input takes the nameprep/punycode path,
which no claim below exercises and which this embedding reports as a
UnicodeError placeholder. -/
def pyIdnaEncode (s : String) : Except PyError String :=
  if s = "" then .ok ""
  else
    let cs := s.toList
    if cs.all (fun c => c.toNat < 128) then
      let labels := splitOnP (fun c => c == '.') cs
      if labels.dropLast.all (fun l => decide (0 < l.length) && decide (l.length < 64)) then
        if (labels.getLastD []).length < 64 then .ok s
        else .error (.unicodeError "label too long")
      else .error (.unicodeError "label empty or too long")
    else .error (.unicodeError "nonascii idna path not modelled")

/-- model.py 30-32: a frozen value holding one attribute `text`, validated to
be unicode of nonzero length. -/
structure Name where
  text : String
deriving DecidableEq

/-- `Name(t)`: the attrs validators `instance_of(unicode)` (always satisfied
by a Lean `String`) and `_not_empty` (model.py 25-27), which raises
ValueError when `0 == len(value)`. -/
def mkName (t : String) : Except PyError Name :=
  if t.length = 0 then .error .valueErrorNotEmpty
  else .ok ⟨t⟩

theorem mkName_ok (t : String) (h : t ≠ "") : mkName t = .ok ⟨t⟩ := by
  unfold mkName
  rw [if_neg]
  intro hc
  apply h
  cases t with
  | mk data =>
    cases data with
    | nil => rfl
    | cons c cs => simp [String.length] at hc

/-- `Name.__str__` (model.py 34-35): `self.text.encode("idna")`, followed at
the call sites by `unicode(...)` which ASCII-decodes the resulting bytes
(IDNA output is always ASCII, so that decode is the identity). -/
def pyStrName (n : Name) : Except PyError String :=
  pyIdnaEncode n.text

/-- model.py 38-40. -/
structure NS where
  nameserver : Name
deriving DecidableEq

/-- model.py 49-51. -/
structure CNAME where
  canonical_name : Name
deriving DecidableEq

/-- model.py 60-68: the seven SOA fields. -/
structure SOA where
  mname : Name
  rname : Name
  serial : Int
  refresh : Int
  retry : Int
  expire : Int
  minimum : Int
deriving DecidableEq

/-- `NS.from_element` (model.py 42-44):
`cls(Name(maybe_bytes_to_unicode(e.find("Value").text)))`. -/
def NS.from_element (e : XElem) : Except PyError NS :=
  match findTextE e "Value" with
  | .error er => .error er
  | .ok v =>
    match asUnicodeArg v with
    | .error er => .error er
    | .ok t =>
      match mkName t with
      | .error er => .error er
      | .ok n => .ok ⟨n⟩

/-- `NS.to_string` (model.py 46-47): `unicode(self.nameserver)`. -/
def NS.to_string (x : NS) : Except PyError String :=
  pyStrName x.nameserver

/-- `CNAME.from_element` (model.py 53-55). -/
def CNAME.from_element (e : XElem) : Except PyError CNAME :=
  match findTextE e "Value" with
  | .error er => .error er
  | .ok v =>
    match asUnicodeArg v with
    | .error er => .error er
    | .ok t =>
      match mkName t with
      | .error er => .error er
      | .ok n => .ok ⟨n⟩

/-- `CNAME.to_string` (model.py 57-58): `unicode(self.canonical_name)`. -/
def CNAME.to_string (x : CNAME) : Except PyError String :=
  pyStrName x.canonical_name

/-- The tuple-unpack and field construction of `SOA.from_element`
(model.py 72-81): exactly 7 tokens or the unpack ValueError; then `Name`
on the first two tokens and `int` on the remaining five, evaluated in
field order. -/
def soaFromTokens (toks : List String) : Except PyError SOA :=
  match toks with
  | [mn, rn, se, rf, rt, ex, mi] => do
    let mname ← mkName mn
    let rname ← mkName rn
    let serial ← pyInt se
    let refresh ← pyInt rf
    let retry ← pyInt rt
    let expire ← pyInt ex
    let minimum ← pyInt mi
    pure ⟨mname, rname, serial, refresh, retry, expire, minimum⟩
  | l => .error (.valueErrorUnpack l.length)

/-- `SOA.from_element` (model.py 70-81): split the Value text on whitespace
(`None` text fails at `.split`), then unpack and build via
`soaFromTokens`. -/
def SOA.from_element (e : XElem) : Except PyError SOA :=
  match findTextE e "Value" with
  | .error er => .error er
  | .ok none => .error (.attributeError "NoneType object has no attribute split")
  | .ok (some v) => soaFromTokens (pySplitWs v)

/-- A `str.format` replacement field resolved against the keyword-argument
table: a field with no matching keyword raises KeyError(field). -/
def pyFormatFieldLookup (kwargs : List (String × String)) (f : String) : Except PyError String :=
  match kwargs.lookup f with
  | some v => .ok v
  | none => .error (.keyError f)

/-- `str.format` for a template made of named replacement fields joined by
single spaces, as in `SOA.to_string`: resolve each field against the
keyword arguments, then join. -/
def pyFormatNamed (fields : List String) (kwargs : List (String × String)) : Except PyError String :=
  match exceptMapM (pyFormatFieldLookup kwargs) fields with
  | .error e => .error e
  | .ok parts => .ok (String.intercalate " " parts)

/-- The seven named replacement fields of the SOA format template
(model.py 84), in template order. -/
def soaFormatFields : List String :=
  ["mname", "rname", "serial", "refresh", "retry", "expire", "minimum"]

/-- `SOA.to_string` (model.py 83-84): the template names the seven fields,
but `vars(self)` is passed to `.format` as a single POSITIONAL argument
(not `**vars(self)`), so the keyword table is empty and the first named
field raises KeyError("mname") for every SOA value. -/
def SOA.to_string (_s : SOA) : Except PyError String :=
  pyFormatNamed soaFormatFields []

/-- The record values the client can decode (client.py 63-67 registers the
three types; spec 3 calls this the polymorphic Record capability). -/
inductive Rec where
  | soa (s : SOA)
  | ns (n : NS)
  | cname (c : CNAME)
deriving DecidableEq

/-- `Record.to_string` dispatch: each record value serialized by its own
`to_string` (model.py 46-47, 57-58, 83-84). -/
def Rec.to_string : Rec → Except PyError String
  | .soa s => s.to_string
  | .ns n => n.to_string
  | .cname c => c.to_string

/-- The decoding capabilities registrable in `RECORD_TYPES`: tags for the
three record classes of model.py. -/
inductive RType where
  | soa
  | ns
  | cname
deriving DecidableEq

/-- Dispatch of `RECORD_TYPES[type].from_element` (client.py 204): the
`from_element` classmethod of the class registered for the tag. -/
def RType.from_element : RType → XElem → Except PyError Rec
  | .soa, e => (SOA.from_element e).map .soa
  | .ns, e => (NS.from_element e).map .ns
  | .cname, e => (CNAME.from_element e).map .cname

/-- client.py 63-67: the registry from DNS type text to record class. -/
def RECORD_TYPES : List (String × RType) :=
  [("SOA", .soa), ("NS", .ns), ("CNAME", .cname)]

/-- `RECORD_TYPES[type]` (client.py 204): a dict subscript, raising KeyError
when the key is not registered; the key is the raw `.text` of the Type
element, so an absent text (None) is also an unregistered key. -/
def lookupRecordType : Option String → Except PyError RType
  | none => .error (.keyError "None")
  | some s =>
    match RECORD_TYPES.lookup s with
    | some rt => .ok rt
    | none => .error (.keyError s)

/-- The per-record-set decode comprehension of client.py 203-207:
`(RECORD_TYPES[type].from_element(element) for element in records)`
collected into a Python set (duplicates collapse), with the dict lookup
re-evaluated for each element — so an empty `records` never consults the
registry. -/
def decodeRRSetRecords (tText : Option String) (els : List XElem) : Except PyError (Finset Rec) :=
  match exceptMapM (fun el =>
      match lookupRecordType tText with
      | .error e => .error e
      | .ok rt => rt.from_element el) els with
  | .error e => .error e
  | .ok recs => .ok recs.toFinset

/-- `result.setdefault(name, set()).update(s)` (client.py 203): extend the
set stored under `name`, inserting an entry if absent; the Python dict is
modelled as an association list with unique keys. -/
def setdefaultUpdate : List (Name × Finset Rec) → Name → Finset Rec → List (Name × Finset Rec)
  | [], n, s => [(n, s)]
  | (k, v) :: rest, n, s =>
    if k = n then (k, v ∪ s) :: rest
    else (k, v) :: setdefaultUpdate rest n s

/-- One iteration of the loop of
`_handle_list_resource_record_sets_response` (client.py 199-207): read the
rrset Name (a `Name` value) and raw Type text, decode every nested
ResourceRecord with the registered capability, and merge into the result
mapping. -/
def rrsetStep (result : List (Name × Finset Rec)) (rrset : XElem) : Except PyError (List (Name × Finset Rec)) :=
  match findTextE rrset "Name" with
  | .error e => .error e
  | .ok nOpt =>
    match asUnicodeArg nOpt with
    | .error e => .error e
    | .ok nTxt =>
      match mkName nTxt with
      | .error e => .error e
      | .ok name =>
        match pyFind ["Type"] rrset with
        | none => .error (.attributeError "NoneType object has no attribute text")
        | some tEl =>
          match decodeRRSetRecords tEl.text (iterfindPath ["ResourceRecords", "ResourceRecord"] rrset) with
          | .error e => .error e
          | .ok s => .ok (setdefaultUpdate result name s)

/-- `_handle_list_resource_record_sets_response` (client.py 196-208): fold
the loop body over every `./ResourceRecordSets/ResourceRecordSet` of the
document, starting from the empty dict. -/
def handle_list_resource_record_sets (doc : XElem) : Except PyError (List (Name × Finset Rec)) :=
  exceptFoldlM rrsetStep [] (iterfindPath ["ResourceRecordSets", "ResourceRecordSet"] doc)

/-- model.py 87-95. -/
structure HostedZone where
  name : String
  identifier : String
  rrset_count : Int
  reference : String
deriving DecidableEq

/-- `hostedzone_from_element` (client.py 277-283).  The keyword arguments
are evaluated in source order: `name` (raw text), `identifier` (text with
every occurrence of "/hostedzone/" removed by `str.replace`; `.replace` on
an absent text raises AttributeError), `rrset_count` (`int` of the text;
`int(None)` raises TypeError), `reference` (raw text); then the attrs
validators reject a None `name` or `reference`. -/
def hostedzone_from_element (zone : XElem) : Except PyError HostedZone :=
  match findTextE zone "Name" with
  | .error e => .error e
  | .ok nameOpt =>
  match findTextE zone "Id" with
  | .error e => .error e
  | .ok idOpt =>
  match (match idOpt with
         | none => Except.error (PyError.attributeError "NoneType object has no attribute replace")
         | some idt => Except.ok (pyReplace idt "/hostedzone/" "")) with
  | .error e => .error e
  | .ok ident =>
  match findTextE zone "ResourceRecordSetCount" with
  | .error e => .error e
  | .ok cntOpt =>
  match (match cntOpt with
         | none => Except.error (PyError.typeError "int() argument must be a string, not NoneType")
         | some ct => pyInt ct) with
  | .error e => .error e
  | .ok cnt =>
  match findTextE zone "CallerReference" with
  | .error e => .error e
  | .ok refOpt =>
  match asUnicodeArg nameOpt with
  | .error e => .error e
  | .ok nm =>
  match asUnicodeArg refOpt with
  | .error e => .error e
  | .ok rf => .ok ⟨nm, ident, cnt, rf⟩

/-- `_handle_create_hosted_zone_response` (client.py 129-133):
`document.find("./HostedZone")` then `hostedzone_from_element`; when the
element is absent the subsequent `.find` on None raises AttributeError. -/
def handle_create_hosted_zone (doc : XElem) : Except PyError HostedZone :=
  match pyFind ["HostedZone"] doc with
  | none => .error (.attributeError "NoneType object has no attribute find")
  | some z => hostedzone_from_element z

/-- `_handle_list_hosted_zones_response` (client.py 147-152): one
`HostedZone` appended per `./HostedZones/HostedZone` element, in document
order. -/
def handle_list_hosted_zones (doc : XElem) : Except PyError (List HostedZone) :=
  exceptMapM hostedzone_from_element (iterfindPath ["HostedZones", "HostedZone"] doc)

/-- twisted.web.http.OK, the default success status (client.py 237). -/
def OK : Nat := 200

/-- twisted.web.http.CREATED, the success status of create_hosted_zone
(client.py 123). -/
def CREATED : Nat := 201

/-- `_Op` (client.py 230-238): the operation descriptor.  `ok_status`
defaults to `(OK,)`; `query` to the empty list; `body` (raw bytes built by
`to_xml`, kept here as the element tree) to empty. -/
structure Op (α : Type) where
  method : String
  path : List String
  query : List (String × String) := []
  body : Option XElem := none
  ok_status : List Nat := [OK]
  extract_result : XElem → Except PyError α

/-- The status and parsed body document of an HTTP exchange, as seen by the
response pipeline of `_submit` (client.py 98-104). -/
structure HttpResponse where
  status : Nat
  document : XElem

/-- The failures observable from one operation call: a typed service error
(Route53Error wrapping the spec ServiceError) raised when the response
status is outside the declared success set, or a Python exception escaping
the response decoder. -/
inductive CallError where
  | serviceError (status : Nat)
  | decodeError (e : PyError)
deriving DecidableEq

/-- Modelled from the spec: the submit/status machinery of
`txaws.client.base.query` used by `_Route53Client._submit` and `_op`
(client.py 98-110) lives outside src/.  Per spec 4.4 and 7, a response
status outside the operation's declared success set surfaces as the typed
service error and the body is never decoded; on a success status the parsed
document is handed to the operation's `extract_result`. -/
def runOp {α : Type} (op : Op α) (resp : HttpResponse) : Except CallError α :=
  if resp.status ∈ op.ok_status then
    match op.extract_result resp.document with
    | .ok a => .ok a
    | .error e => .error (.decodeError e)
  else .error (.serviceError resp.status)

/-- Modelled from the spec: the declarative tag builder `tags` from
txaws/route53/_util.py (not under src/): `tags.X(children)` builds an
element named X with the given ordered children (spec 4.2). -/
def tagNode (tag : String) (children : List XElem) : XElem :=
  XElem.mk tag none children

/-- Modelled from the spec: `tags.X(text)` builds a leaf element named X
with the given text content (spec 4.2). -/
def tagText (tag : String) (t : String) : XElem :=
  XElem.mk tag (some t) []

/-- The body of `create_hosted_zone` (client.py 119-122); the xmlns
attribute is not tracked by `XElem`. -/
def createHostedZoneBody (caller_reference nm : String) : XElem :=
  tagNode "CreateHostedZoneRequest"
    [tagText "CallerReference" caller_reference, tagText "Name" nm]

/-- `create_hosted_zone` (client.py 112-127): POST, path
2013-04-01/hostedzone, CreateHostedZoneRequest body, ok_status (CREATED,),
result decoded by `_handle_create_hosted_zone_response`. -/
def create_hosted_zone_op (caller_reference nm : String) : Op HostedZone :=
  { method := "POST"
    path := ["2013-04-01", "hostedzone"]
    body := some (createHostedZoneBody caller_reference nm)
    ok_status := [CREATED]
    extract_result := handle_create_hosted_zone }

/-- `list_hosted_zones` (client.py 135-145): GET, default ok_status. -/
def list_hosted_zones_op : Op (List HostedZone) :=
  { method := "GET"
    path := ["2013-04-01", "hostedzone"]
    extract_result := handle_list_hosted_zones }

/-- Python truthiness of an optional text argument (`if identifier:`):
false for None and for the empty string. -/
def pyTruthyS : Option String → Bool
  | none => false
  | some s => !(s == "")

/-- Python truthiness of an optional integer argument (`if maxitems:`):
false for None and for 0. -/
def pyTruthyI : Option Int → Bool
  | none => false
  | some n => !(n == 0)

/-- The query-argument assembly of `list_resource_record_sets`
(client.py 177-185): each of the four filters is appended only when truthy,
in the order identifier, maxitems (rendered with `str`), name, type. -/
def lrrsQuery (identifier : Option String) (maxitems : Option Int)
    (nm : Option String) (ty : Option String) : List (String × String) :=
  (if pyTruthyS identifier then [("identifier", identifier.getD "")] else []) ++
  (if pyTruthyI maxitems then [("maxitems", toString (maxitems.getD 0))] else []) ++
  (if pyTruthyS nm then [("name", nm.getD "")] else []) ++
  (if pyTruthyS ty then [("type", ty.getD "")] else [])

/-- `list_resource_record_sets` (client.py 173-194): GET on
2013-04-01/hostedzone/zone_id/rrset with the filter query, default
ok_status, result decoded by
`_handle_list_resource_record_sets_response`. -/
def list_resource_record_sets_op (zone_id : String) (identifier : Option String)
    (maxitems : Option Int) (nm : Option String) (ty : Option String) :
    Op (List (Name × Finset Rec)) :=
  { method := "GET"
    path := ["2013-04-01", "hostedzone", zone_id, "rrset"]
    query := lrrsQuery identifier maxitems nm ty
    extract_result := handle_list_resource_record_sets }

/-- `_ChangeRRSet` (client.py 286-291): one CREATE/DELETE mutation over a
record collection (spec 3 ChangeRequest); the collection's iteration order
is the list order. -/
structure ChangeRRSet where
  action : String
  name : Name
  ty : String
  rrset : List Rec

/-- `_ChangeRRSet.to_element` (client.py 293-314): build the `<Change>`
element.  Python evaluates `unicode(self.name)` (the IDNA encoding, which
can raise) and then each record's `to_string()` before assembling the
tree; the TTL is the fixed `unicode(60 * 60 * 24)`. -/
def ChangeRRSet.to_element (c : ChangeRRSet) : Except PyError XElem :=
  match pyStrName c.name with
  | .error e => .error e
  | .ok n =>
    match exceptMapM Rec.to_string c.rrset with
    | .error e => .error e
    | .ok vals =>
      .ok (tagNode "Change"
        [tagText "Action" c.action,
         tagNode "ResourceRecordSet"
           [tagText "Name" n,
            tagText "Type" c.ty,
            tagText "TTL" (toString (60 * 60 * 24)),
            tagNode "ResourceRecords"
              (vals.map (fun v => tagNode "ResourceRecord" [tagText "Value" v]))]])

/-- `create_rrset` (client.py 316-317). -/
def create_rrset (nm : Name) (ty : String) (rrset : List Rec) : ChangeRRSet :=
  ⟨"CREATE", nm, ty, rrset⟩

/-- `delete_rrset` (client.py 324-325). -/
def delete_rrset (nm : Name) (ty : String) (rrset : List Rec) : ChangeRRSet :=
  ⟨"DELETE", nm, ty, rrset⟩

instance {ε α : Type} [DecidableEq ε] [DecidableEq α] : DecidableEq (Except ε α) := fun a b =>
  match a, b with
  | .error e, .error f =>
    if h : e = f then .isTrue (congrArg Except.error h)
    else .isFalse (fun hc => h (Except.error.inj hc))
  | .error _, .ok _ => .isFalse (fun hc => Except.noConfusion hc)
  | .ok _, .error _ => .isFalse (fun hc => Except.noConfusion hc)
  | .ok x, .ok y =>
    if h : x = y then .isTrue (congrArg Except.ok h)
    else .isFalse (fun hc => h (Except.ok.inj hc))

/-- C5: `Name` construction on the empty text fails with the invalid-name
error (the ValueError of the `_not_empty` validator, the spec's
`InvalidNameError`), and for every non-empty text `t`, `Name(t)` succeeds
and stores the text unchanged. -/
theorem name_empty_rejected_nonempty_kept :
    (mkName "" = .error .valueErrorNotEmpty ∧ IsInvalidNameError .valueErrorNotEmpty = true)
    ∧ ∀ t : String, t ≠ "" → ∃ n : Name, mkName t = .ok n ∧ n.text = t := by
  refine ⟨⟨rfl, rfl⟩, ?_⟩
  intro t ht
  exact ⟨⟨t⟩, mkName_ok t ht, rfl⟩

theorem name_empty_rejected_nonempty_kept_witness :
    ("example.com" : String) ≠ ""
    ∧ ∃ n : Name, mkName "example.com" = .ok n ∧ n.text = "example.com" :=
  ⟨by decide, name_empty_rejected_nonempty_kept.2 "example.com" (by decide)⟩

/-- C10: `Name` construction does not validate IDNA representability: the
64-character label (which the IDNA codec rejects) constructs successfully,
and the failure surfaces only in `Name.__str__`, which raises
UnicodeError("label too long"). -/
theorem name_defers_idna_failure :
    mkName (String.mk (List.replicate 64 'a')) = .ok ⟨String.mk (List.replicate 64 'a')⟩
    ∧ pyStrName ⟨String.mk (List.replicate 64 'a')⟩ = .error (.unicodeError "label too long") := by
  exact ⟨by decide, by decide⟩

/-- C2: the SOA encode/decode round trip never gets off the ground, because
`SOA.to_string` raises KeyError("mname") for every SOA value:
model.py 84 passes `vars(self)` to `str.format` positionally where the
template requires keyword arguments (`**vars(self)`).  This contradicts
the spec round-trip property; the code, not the claim, is at fault. -/
theorem soa_to_string_raises_keyerror :
    ∀ s : SOA, SOA.to_string s = .error (.keyError "mname") := fun _ => rfl

theorem soa_to_string_raises_keyerror_witness :
    SOA.to_string ⟨⟨"ns.example.com"⟩, ⟨"hostmaster.example.com"⟩, 1, 7200, 900, 1209600, 86400⟩
      = .error (.keyError "mname") :=
  soa_to_string_raises_keyerror ⟨⟨"ns.example.com"⟩, ⟨"hostmaster.example.com"⟩, 1, 7200, 900, 1209600, 86400⟩

/-- C3: a response status outside the operation's declared success set fails
with the typed service error, for every operation; the result is
independent of the operation's result decoder, which is never consulted;
the declared success sets are exactly (CREATED,) = (201,) for
create_hosted_zone and the default (OK,) = (200,) for the list
operations. -/
theorem status_gate_blocks_decoding :
    (∀ (α : Type) (op : Op α) (resp : HttpResponse), resp.status ∉ op.ok_status →
        runOp op resp = .error (.serviceError resp.status))
    ∧ (∀ (α : Type) (op : Op α) (resp : HttpResponse) (f : XElem → Except PyError α),
        resp.status ∉ op.ok_status →
          runOp { op with extract_result := f } resp = runOp op resp)
    ∧ (∀ r n, (create_hosted_zone_op r n).ok_status = [CREATED])
    ∧ list_hosted_zones_op.ok_status = [OK]
    ∧ (∀ z i m n t, (list_resource_record_sets_op z i m n t).ok_status = [OK])
    ∧ OK = 200 ∧ CREATED = 201 := by
  refine ⟨?_, ?_, fun r n => rfl, rfl, fun z i m n t => rfl, rfl, rfl⟩
  · intro α op resp h
    unfold runOp
    rw [if_neg h]
  · intro α op resp f h
    unfold runOp
    have hst : ({ op with extract_result := f } : Op α).ok_status = op.ok_status := rfl
    rw [hst, if_neg h, if_neg h]

theorem status_gate_blocks_decoding_witness :
    (400 ∉ (create_hosted_zone_op "ref" "example.com").ok_status)
    ∧ runOp (create_hosted_zone_op "ref" "example.com") ⟨400, XElem.mk "ErrorResponse" none []⟩
        = .error (.serviceError 400) :=
  ⟨by decide,
   status_gate_blocks_decoding.1 HostedZone (create_hosted_zone_op "ref" "example.com")
     ⟨400, XElem.mk "ErrorResponse" none []⟩ (by decide)⟩

/-- C7 counterexample: `maxitems=0` is a present (non-None) value, yet
`list_resource_record_sets` omits the parameter entirely, because the code
tests Python truthiness (`if maxitems:`), not presence. -/
theorem lrrs_query_omits_zero_maxitems :
    (list_resource_record_sets_op "Z1" none (some 0) none none).query = []
    ∧ (some (0 : Int)).isSome = true := ⟨rfl, rfl⟩

/-- C7 (amended): a filter parameter appears in the query exactly when its
value is truthy — non-None and non-empty for the text filters, non-None
and non-zero for maxitems — carrying its given value (maxitems rendered
with `str`), and nothing but the four filters ever appears. -/
theorem lrrs_query_params_iff_truthy :
    ∀ (idf : Option String) (mi : Option Int) (nm ty : Option String) (v : String),
      (("identifier", v) ∈ lrrsQuery idf mi nm ty ↔ idf = some v ∧ v ≠ "")
      ∧ (("maxitems", v) ∈ lrrsQuery idf mi nm ty ↔ ∃ k : Int, mi = some k ∧ k ≠ 0 ∧ v = toString k)
      ∧ (("name", v) ∈ lrrsQuery idf mi nm ty ↔ nm = some v ∧ v ≠ "")
      ∧ (("type", v) ∈ lrrsQuery idf mi nm ty ↔ ty = some v ∧ v ≠ "")
      ∧ ∀ p ∈ lrrsQuery idf mi nm ty,
          p.1 = "identifier" ∨ p.1 = "maxitems" ∨ p.1 = "name" ∨ p.1 = "type" := by
  intro idf mi nm ty v
  unfold lrrsQuery
  rcases idf with _ | si <;> rcases mi with _ | ki <;> rcases nm with _ | ni <;> rcases ty with _ | ti <;>
    simp only [pyTruthyS, pyTruthyI] <;>
    split_ifs <;>
    simp_all <;>
    aesop

theorem lrrs_query_params_iff_truthy_witness :
    ("identifier", "abc") ∈ lrrsQuery (some "abc") (some 3) none (some "NS")
    ∧ ("maxitems", "3") ∈ lrrsQuery (some "abc") (some 3) none (some "NS")
    ∧ ¬ ∃ w, ("name", w) ∈ lrrsQuery (some "abc") (some 3) none (some "NS") :=
  ⟨((lrrs_query_params_iff_truthy (some "abc") (some 3) none (some "NS") "abc").1).mpr
     ⟨rfl, by decide⟩,
   ((lrrs_query_params_iff_truthy (some "abc") (some 3) none (some "NS") "3").2.1).mpr
     ⟨3, rfl, by decide, by decide⟩,
   fun ⟨w, hw⟩ => by
     have h := ((lrrs_query_params_iff_truthy (some "abc") (some 3) none (some "NS") w).2.2.1).mp hw
     exact Option.noConfusion h.1⟩

/-- A HostedZone response element with the given Id text (concrete Name,
count and CallerReference), for witnesses and counterexamples. -/
def mkZoneEl (idt : String) : XElem :=
  XElem.mk "HostedZone" none
    [XElem.mk "Name" (some "example.com") [],
     XElem.mk "Id" (some idt) [],
     XElem.mk "ResourceRecordSetCount" (some "2") [],
     XElem.mk "CallerReference" (some "ref") []]

/-- A list_hosted_zones response document wrapping the given HostedZone
elements. -/
def mkListZonesDoc (zs : List XElem) : XElem :=
  XElem.mk "ListHostedZonesResponse" none [XElem.mk "HostedZones" none zs]

/-- The claim C4 wording, for comparison with the code: the raw Id text
with the fixed path prefix "/hostedzone/" (12 characters) stripped when
present. -/
def stripPrefixSpec (raw : String) : String :=
  if ("/hostedzone/".toList).isPrefixOf raw.toList then String.mk (raw.toList.drop 12) else raw

/-- C4 counterexample: the code removes EVERY occurrence of "/hostedzone/"
(`str.replace`), not just a leading prefix; on the raw Id text
"/hostedzone//hostedzone/Z1" decoding yields identifier "Z1" where
prefix-stripping would yield "/hostedzone/Z1". -/
theorem hostedzone_identifier_not_prefix_strip :
    (hostedzone_from_element (mkZoneEl "/hostedzone//hostedzone/Z1")).map HostedZone.identifier
      = .ok "Z1"
    ∧ stripPrefixSpec "/hostedzone//hostedzone/Z1" = "/hostedzone/Z1"
    ∧ ("Z1" : String) ≠ "/hostedzone/Z1" := by
  refine ⟨by decide, by decide, by decide⟩

/-- C4 (amended): every decoded HostedZone has as identifier the raw Id
text with every occurrence of "/hostedzone/" removed (which equals
prefix-stripping whenever the substring only occurs as the leading
prefix, e.g. raw "/hostedzone/Z111" gives "Z111"), and list_hosted_zones
returns exactly one HostedZone per HostedZone element of the response. -/
theorem hostedzone_identifier_replace_all :
    (∀ (doc : XElem) (zones : List HostedZone),
       handle_list_hosted_zones doc = .ok zones →
       zones.length = (iterfindPath ["HostedZones", "HostedZone"] doc).length)
    ∧ (∀ (z : XElem) (hz : HostedZone) (raw : String),
       hostedzone_from_element z = .ok hz →
       (pyFind ["Id"] z).bind XElem.text = some raw →
       hz.identifier = pyReplace raw "/hostedzone/" "") := by
  constructor
  · intro doc zones h
    exact exceptMapM_length hostedzone_from_element _ zones h
  · intro z hz raw hok hid
    have hfind : findTextE z "Id" = .ok (some raw) := by
      cases hfz : pyFind ["Id"] z with
      | none => rw [hfz] at hid; cases hid
      | some c =>
        rw [hfz] at hid
        simp only [Option.some_bind] at hid
        simp [findTextE, hfz, maybe_bytes_to_unicode, hid]
    unfold hostedzone_from_element at hok
    rw [hfind] at hok
    simp only [maybe_bytes_to_unicode] at hok
    repeat (first
      | exact Except.noConfusion hok
      | split at hok)
    cases hok
    rfl

theorem hostedzone_identifier_replace_all_witness :
    ([HostedZone.mk "example.com" "Z111" 2 "ref", HostedZone.mk "example.com" "Z222" 2 "ref"] : List HostedZone).length
      = (iterfindPath ["HostedZones", "HostedZone"]
          (mkListZonesDoc [mkZoneEl "/hostedzone/Z111", mkZoneEl "/hostedzone/Z222"])).length
    ∧ (HostedZone.mk "example.com" "Z111" 2 "ref").identifier
        = pyReplace "/hostedzone/Z111" "/hostedzone/" "" :=
  ⟨hostedzone_identifier_replace_all.1
     (mkListZonesDoc [mkZoneEl "/hostedzone/Z111", mkZoneEl "/hostedzone/Z222"])
     [HostedZone.mk "example.com" "Z111" 2 "ref", HostedZone.mk "example.com" "Z222" 2 "ref"]
     (by decide),
   hostedzone_identifier_replace_all.2 (mkZoneEl "/hostedzone/Z111")
     (HostedZone.mk "example.com" "Z111" 2 "ref") "/hostedzone/Z111"
     (by decide) (by decide)⟩

/-- C6: every ChangeRequest built by `create_rrset` (and analogously
`delete_rrset`) serializes to a Change element with Action CREATE
(resp. DELETE) and a ResourceRecordSet carrying the encoded name, the
type, the fixed TTL 86400, and one ResourceRecord/Value entry per record
of the collection, in iteration order (the value list has exactly the
collection's length). -/
theorem change_rrset_element_shape :
    ∀ (nm : Name) (ty : String) (rrset : List Rec) (n : String) (vals : List String),
      pyStrName nm = .ok n →
      exceptMapM Rec.to_string rrset = .ok vals →
      (create_rrset nm ty rrset).to_element = .ok (tagNode "Change"
          [tagText "Action" "CREATE",
           tagNode "ResourceRecordSet"
             [tagText "Name" n, tagText "Type" ty, tagText "TTL" "86400",
              tagNode "ResourceRecords"
                (vals.map (fun v => tagNode "ResourceRecord" [tagText "Value" v]))]])
      ∧ (delete_rrset nm ty rrset).to_element = .ok (tagNode "Change"
          [tagText "Action" "DELETE",
           tagNode "ResourceRecordSet"
             [tagText "Name" n, tagText "Type" ty, tagText "TTL" "86400",
              tagNode "ResourceRecords"
                (vals.map (fun v => tagNode "ResourceRecord" [tagText "Value" v]))]])
      ∧ vals.length = rrset.length := by
  intro nm ty rrset n vals hn hv
  have httl : toString (60 * 60 * 24) = "86400" := rfl
  refine ⟨?_, ?_, exceptMapM_length Rec.to_string rrset vals hv⟩ <;>
    simp [create_rrset, delete_rrset, ChangeRRSet.to_element, hn, hv, httl]

theorem change_rrset_element_shape_witness :
    pyStrName ⟨"example.com"⟩ = .ok "example.com"
    ∧ exceptMapM Rec.to_string [Rec.ns ⟨⟨"ns1.example.com"⟩⟩, Rec.ns ⟨⟨"ns2.example.com"⟩⟩]
        = .ok ["ns1.example.com", "ns2.example.com"]
    ∧ (create_rrset ⟨"example.com"⟩ "NS"
         [Rec.ns ⟨⟨"ns1.example.com"⟩⟩, Rec.ns ⟨⟨"ns2.example.com"⟩⟩]).to_element
        = .ok (tagNode "Change"
            [tagText "Action" "CREATE",
             tagNode "ResourceRecordSet"
               [tagText "Name" "example.com", tagText "Type" "NS", tagText "TTL" "86400",
                tagNode "ResourceRecords"
                  (["ns1.example.com", "ns2.example.com"].map
                    (fun v => tagNode "ResourceRecord" [tagText "Value" v]))]])
    ∧ (["ns1.example.com", "ns2.example.com"] : List String).length
        = ([Rec.ns ⟨⟨"ns1.example.com"⟩⟩, Rec.ns ⟨⟨"ns2.example.com"⟩⟩] : List Rec).length :=
  ⟨by decide, by decide,
   (change_rrset_element_shape ⟨"example.com"⟩ "NS"
      [Rec.ns ⟨⟨"ns1.example.com"⟩⟩, Rec.ns ⟨⟨"ns2.example.com"⟩⟩]
      "example.com" ["ns1.example.com", "ns2.example.com"]
      (by decide) (by decide)).1,
   (change_rrset_element_shape ⟨"example.com"⟩ "NS"
      [Rec.ns ⟨⟨"ns1.example.com"⟩⟩, Rec.ns ⟨⟨"ns2.example.com"⟩⟩]
      "example.com" ["ns1.example.com", "ns2.example.com"]
      (by decide) (by decide)).2.2⟩

/-- The Value text reachable from a record element, when present:
`e.find("Value").text`. -/
def rrValueText (e : XElem) : Option String := (pyFind ["Value"] e).bind XElem.text

theorem except_bind_ok {ε α β : Type} (x : α) (f : α → Except ε β) :
    (Except.ok x >>= f : Except ε β) = f x := rfl

theorem except_bind_err {ε α β : Type} (e : ε) (f : α → Except ε β) :
    (Except.error e >>= f : Except ε β) = .error e := rfl

theorem findTextE_of_rrValueText {e : XElem} {v : String} (h : rrValueText e = some v) :
    findTextE e "Value" = .ok (some v) := by
  unfold rrValueText at h
  cases hf : pyFind ["Value"] e with
  | none => rw [hf] at h; cases h
  | some c =>
    rw [hf] at h
    simp only [Option.some_bind] at h
    simp [findTextE, hf, maybe_bytes_to_unicode, h]

theorem SOA_from_element_of_text {e : XElem} {v : String}
    (h : findTextE e "Value" = .ok (some v)) :
    SOA.from_element e = soaFromTokens (pySplitWs v) := by
  unfold SOA.from_element
  rw [h]

/-- C8: an SOA Value text that does not split into exactly 7 tokens, or
whose tokens past the first two are not all parseable as integers, makes
`SOA.decode` fail with a malformed-record error (tuple-unpack or
int-literal ValueError); and every record type's decode fails with a
malformed-record error (AttributeError) when the Value child is absent. -/
theorem record_decode_malformed_errors :
    (∀ (e : XElem) (v : String),
       rrValueText e = some v → (pySplitWs v).length ≠ 7 →
       ∃ er, SOA.from_element e = .error er ∧ IsMalformedRecordError er = true)
    ∧ (∀ (e : XElem) (v : String),
       rrValueText e = some v → (pySplitWs v).length = 7 →
       (∃ tok ∈ (pySplitWs v).drop 2, pyParseIntQ tok = none) →
       ∃ er, SOA.from_element e = .error er ∧ IsMalformedRecordError er = true)
    ∧ (∀ e : XElem, pyFind ["Value"] e = none →
       (∃ er, SOA.from_element e = .error er ∧ IsMalformedRecordError er = true)
       ∧ (∃ er, NS.from_element e = .error er ∧ IsMalformedRecordError er = true)
       ∧ (∃ er, CNAME.from_element e = .error er ∧ IsMalformedRecordError er = true)) := by
  refine ⟨?_, ?_, ?_⟩
  · intro e v hval hlen
    rw [SOA_from_element_of_text (findTextE_of_rrValueText hval)]
    rcases hsp : pySplitWs v with _ | ⟨a, _ | ⟨b, _ | ⟨c2, _ | ⟨d, _ | ⟨e2, _ | ⟨f, _ | ⟨g, _ | ⟨h8, t⟩⟩⟩⟩⟩⟩⟩⟩ <;>
      first
        | exact absurd (by rw [hsp]; rfl) hlen
        | exact ⟨_, rfl, rfl⟩
  · intro e v hval hlen hbad
    rw [SOA_from_element_of_text (findTextE_of_rrValueText hval)]
    rcases hsp : pySplitWs v with _ | ⟨a, _ | ⟨b, _ | ⟨c2, _ | ⟨d, _ | ⟨e2, _ | ⟨f, _ | ⟨g, _ | ⟨h8, t⟩⟩⟩⟩⟩⟩⟩⟩ <;>
      try (exfalso; rw [hsp] at hlen; simp only [List.length_cons, List.length_nil] at hlen; omega)
    have ha : a ≠ "" := pySplitWs_mem_ne_empty v a (by rw [hsp]; exact List.mem_cons_self a _)
    have hb : b ≠ "" := pySplitWs_mem_ne_empty v b (by rw [hsp]; simp)
    rw [hsp] at hbad
    simp only [List.drop_succ_cons, List.drop_zero, List.mem_cons, List.not_mem_nil, or_false] at hbad
    obtain ⟨tok, htok, hnone⟩ := hbad
    unfold soaFromTokens
    simp only [mkName_ok a ha, mkName_ok b hb, except_bind_ok]
    cases hc : pyParseIntQ c2 with
    | none =>
      refine ⟨.valueErrorIntLiteral c2, ?_, rfl⟩
      simp [pyInt, hc, except_bind_err]
    | some n1 =>
      have hok1 : pyInt c2 = .ok n1 := by simp [pyInt, hc]
      rw [hok1, except_bind_ok]
      cases hd : pyParseIntQ d with
      | none =>
        refine ⟨.valueErrorIntLiteral d, ?_, rfl⟩
        simp [pyInt, hd, except_bind_err]
      | some n2 =>
        have hok2 : pyInt d = .ok n2 := by simp [pyInt, hd]
        rw [hok2, except_bind_ok]
        cases he : pyParseIntQ e2 with
        | none =>
          refine ⟨.valueErrorIntLiteral e2, ?_, rfl⟩
          simp [pyInt, he, except_bind_err]
        | some n3 =>
          have hok3 : pyInt e2 = .ok n3 := by simp [pyInt, he]
          rw [hok3, except_bind_ok]
          cases hf2 : pyParseIntQ f with
          | none =>
            refine ⟨.valueErrorIntLiteral f, ?_, rfl⟩
            simp [pyInt, hf2, except_bind_err]
          | some n4 =>
            have hok4 : pyInt f = .ok n4 := by simp [pyInt, hf2]
            rw [hok4, except_bind_ok]
            cases hg : pyParseIntQ g with
            | none =>
              refine ⟨.valueErrorIntLiteral g, ?_, rfl⟩
              simp [pyInt, hg, except_bind_err]
            | some n5 =>
              exfalso
              rcases htok with h | h | h | h | h <;> rw [h] at hnone
              · exact Option.noConfusion (hc ▸ hnone)
              · exact Option.noConfusion (hd ▸ hnone)
              · exact Option.noConfusion (he ▸ hnone)
              · exact Option.noConfusion (hf2 ▸ hnone)
              · exact Option.noConfusion (hg ▸ hnone)
  · intro e hfe
    have h1 : findTextE e "Value" = .error (.attributeError "NoneType object has no attribute text") := by
      simp [findTextE, hfe]
    refine ⟨⟨.attributeError "NoneType object has no attribute text", ?_, rfl⟩,
      ⟨.attributeError "NoneType object has no attribute text", ?_, rfl⟩,
      ⟨.attributeError "NoneType object has no attribute text", ?_, rfl⟩⟩
    · unfold SOA.from_element; rw [h1]
    · unfold NS.from_element; rw [h1]
    · unfold CNAME.from_element; rw [h1]

theorem record_decode_malformed_errors_witness :
    (∃ er, SOA.from_element (XElem.mk "ResourceRecord" none [XElem.mk "Value" (some "a b 1 2 3") []])
        = .error er ∧ IsMalformedRecordError er = true)
    ∧ (∃ er, SOA.from_element (XElem.mk "ResourceRecord" none [XElem.mk "Value" (some "m r x 2 3 4 5") []])
        = .error er ∧ IsMalformedRecordError er = true)
    ∧ (∃ er, NS.from_element (XElem.mk "ResourceRecord" none [])
        = .error er ∧ IsMalformedRecordError er = true) :=
  ⟨record_decode_malformed_errors.1
     (XElem.mk "ResourceRecord" none [XElem.mk "Value" (some "a b 1 2 3") []])
     "a b 1 2 3" rfl (by decide),
   record_decode_malformed_errors.2.1
     (XElem.mk "ResourceRecord" none [XElem.mk "Value" (some "m r x 2 3 4 5") []])
     "m r x 2 3 4 5" rfl (by decide) ⟨"x", by decide, by decide⟩,
   (record_decode_malformed_errors.2.2 (XElem.mk "ResourceRecord" none []) rfl).2.1⟩

theorem tag_mk (tg : String) (tx : Option String) (cs : List XElem) :
    (XElem.mk tg tx cs).tag = tg := rfl

theorem text_mk (tg : String) (tx : Option String) (cs : List XElem) :
    (XElem.mk tg tx cs).text = tx := rfl

theorem children_mk (tg : String) (tx : Option String) (cs : List XElem) :
    (XElem.mk tg tx cs).children = cs := rfl

theorem flatMap_pure (l : List XElem) : l.flatMap (fun e => [e]) = l := by
  induction l with
  | nil => rfl
  | cons x xs ih => simp [List.flatMap_cons, ih]

/-- A ResourceRecord element carrying the given Value text. -/
def mkResourceRecordEl (v : String) : XElem :=
  XElem.mk "ResourceRecord" none [XElem.mk "Value" (some v) []]

/-- A ResourceRecordSet element with the given Name text, Type text and
ResourceRecords children. -/
def mkRRSetEl (nm t : String) (rds : List XElem) : XElem :=
  XElem.mk "ResourceRecordSet" none
    [XElem.mk "Name" (some nm) [],
     XElem.mk "Type" (some t) [],
     XElem.mk "ResourceRecords" none rds]

/-- A list_resource_record_sets response document wrapping the given
ResourceRecordSet elements. -/
def mkListRRDoc (rrsets : List XElem) : XElem :=
  XElem.mk "ListResourceRecordSetsResponse" none [XElem.mk "ResourceRecordSets" none rrsets]

theorem iterfind_mkListRRDoc (rs : List XElem)
    (hall : ∀ r ∈ rs, r.tag = "ResourceRecordSet") :
    iterfindPath ["ResourceRecordSets", "ResourceRecordSet"] (mkListRRDoc rs) = rs := by
  simp only [mkListRRDoc, iterfindPath, childrenTagged, children_mk, List.filter_cons,
    tag_mk, beq_self_eq_true, if_true, List.filter_nil, List.flatMap_cons, List.flatMap_nil,
    List.append_nil, flatMap_pure]
  rw [List.filter_eq_self.mpr]
  intro r hr
  simp [hall r hr]

theorem filter_map_rr (vs : List String) :
    (vs.map mkResourceRecordEl).filter (fun r => r.tag == "ResourceRecord") = vs.map mkResourceRecordEl := by
  rw [List.filter_eq_self.mpr]
  intro r hr
  obtain ⟨v, _, hv⟩ := List.mem_map.mp hr
  rw [← hv]
  simp [mkResourceRecordEl, tag_mk]

theorem rrs_of_mkRRSetEl (nm t : String) (rds : List XElem) :
    iterfindPath ["ResourceRecords", "ResourceRecord"] (mkRRSetEl nm t rds)
      = rds.filter (fun r => r.tag == "ResourceRecord") := by
  simp [mkRRSetEl, iterfindPath, childrenTagged, children_mk, tag_mk, flatMap_pure]

theorem rrsetStep_mkRRSetEl_ok (result : List (Name × Finset Rec)) (nm t : String)
    (rds : List XElem) (s : Finset Rec) (hnm : nm ≠ "")
    (hdec : decodeRRSetRecords (some t) (rds.filter (fun r => r.tag == "ResourceRecord")) = .ok s) :
    rrsetStep result (mkRRSetEl nm t rds) = .ok (setdefaultUpdate result ⟨nm⟩ s) := by
  have hfn : findTextE (mkRRSetEl nm t rds) "Name" = .ok (some nm) := rfl
  have hft : pyFind ["Type"] (mkRRSetEl nm t rds) = some (XElem.mk "Type" (some t) []) := rfl
  unfold rrsetStep
  simp only [hfn, hft, asUnicodeArg, mkName_ok nm hnm, text_mk, rrs_of_mkRRSetEl, hdec]

theorem rrsetStep_mkRRSetEl_err (result : List (Name × Finset Rec)) (nm t : String)
    (rds : List XElem) (er : PyError) (hnm : nm ≠ "")
    (hdec : decodeRRSetRecords (some t) (rds.filter (fun r => r.tag == "ResourceRecord")) = .error er) :
    rrsetStep result (mkRRSetEl nm t rds) = .error er := by
  have hfn : findTextE (mkRRSetEl nm t rds) "Name" = .ok (some nm) := rfl
  have hft : pyFind ["Type"] (mkRRSetEl nm t rds) = some (XElem.mk "Type" (some t) []) := rfl
  unfold rrsetStep
  simp only [hfn, hft, asUnicodeArg, mkName_ok nm hnm, text_mk, rrs_of_mkRRSetEl, hdec]

theorem decodeRRSetRecords_unreg (t : String) (ht : RECORD_TYPES.lookup t = none)
    (x : XElem) (xs : List XElem) :
    decodeRRSetRecords (some t) (x :: xs) = .error (.keyError t) := by
  unfold decodeRRSetRecords lookupRecordType
  simp [exceptMapM, ht]

/-- A ResourceRecordSet element carrying a Type text with no registered
decoding capability (the hypothesis of claim C1). -/
def hasUnregisteredTypeText (r : XElem) : Bool :=
  match pyFind ["Type"] r with
  | some c =>
    match c.text with
    | some t => (RECORD_TYPES.lookup t).isNone
    | none => false
  | none => false

/-- A record set that both carries an unregistered Type text and has at
least one ResourceRecord child — the condition under which the registry
lookup is actually evaluated. -/
def badRRSet (r : XElem) : Bool :=
  hasUnregisteredTypeText r && !(iterfindPath ["ResourceRecords", "ResourceRecord"] r).isEmpty

theorem rrsetStep_bad_no_success (r : XElem) (hbad : badRRSet r = true) :
    ∀ (acc res : List (Name × Finset Rec)), rrsetStep acc r ≠ .ok res := by
  intro acc res hok
  have hbad2 := hbad
  unfold badRRSet at hbad2
  rw [Bool.and_eq_true] at hbad2
  obtain ⟨h1, h2⟩ := hbad2
  obtain ⟨c, hft, t, htx, hlk⟩ :
      ∃ c, pyFind ["Type"] r = some c ∧ ∃ t, c.text = some t ∧ RECORD_TYPES.lookup t = none := by
    unfold hasUnregisteredTypeText at h1
    cases hf : pyFind ["Type"] r with
    | none => simp [hf] at h1
    | some c =>
      simp only [hf] at h1
      cases hx : c.text with
      | none => simp [hx] at h1
      | some t =>
        simp only [hx] at h1
        exact ⟨c, rfl, t, hx, Option.isNone_iff_eq_none.mp h1⟩
  obtain ⟨x, xs, hrec⟩ :
      ∃ x xs, iterfindPath ["ResourceRecords", "ResourceRecord"] r = x :: xs := by
    cases hr2 : iterfindPath ["ResourceRecords", "ResourceRecord"] r with
    | nil => rw [hr2] at h2; simp at h2
    | cons x xs => exact ⟨x, xs, rfl⟩
  unfold rrsetStep at hok
  repeat (first
    | exact Except.noConfusion hok
    | split at hok)
  simp_all [decodeRRSetRecords_unreg t hlk]

/-- C1 (amended): whenever some ResourceRecordSet of the response carries an
unregistered Type text AND has at least one ResourceRecord child, the whole
operation fails — it never returns any mapping, partial or empty; in the
clean single-record-set case the error is exactly the registry KeyError,
the spec's UnrecognizedRecordTypeError.  (A record set with an unregistered
Type but no ResourceRecord children is accepted silently, because the
registry is only consulted inside the per-record comprehension — see the
counterexample.) -/
theorem unrecognized_type_with_records_fails :
    (∀ (doc : XElem),
       ((iterfindPath ["ResourceRecordSets", "ResourceRecordSet"] doc).any badRRSet) = true →
       ∀ m, handle_list_resource_record_sets doc ≠ .ok m)
    ∧ (∀ (nm t : String) (vals : List String),
       nm ≠ "" → RECORD_TYPES.lookup t = none → vals ≠ [] →
       handle_list_resource_record_sets
           (mkListRRDoc [mkRRSetEl nm t (vals.map mkResourceRecordEl)])
         = .error (.keyError t)
       ∧ IsUnrecognizedRecordTypeError (.keyError t) = true) := by
  constructor
  · intro doc hany m
    obtain ⟨r, hmem, hbad⟩ := List.any_eq_true.mp hany
    exact exceptFoldlM_no_success rrsetStep r (rrsetStep_bad_no_success r hbad)
      (iterfindPath ["ResourceRecordSets", "ResourceRecordSet"] doc) [] hmem m
  · intro nm t vals hnm hlk hvals
    obtain ⟨v, vs, rfl⟩ : ∃ v vs, vals = v :: vs := by
      cases vals with
      | nil => cases hvals rfl
      | cons v vs => exact ⟨v, vs, rfl⟩
    refine ⟨?_, rfl⟩
    unfold handle_list_resource_record_sets
    rw [iterfind_mkListRRDoc]
    · have hrd : decodeRRSetRecords (some t)
          (((v :: vs).map mkResourceRecordEl).filter (fun r => r.tag == "ResourceRecord"))
          = .error (.keyError t) := by
        rw [filter_map_rr]
        simp only [List.map_cons]
        exact decodeRRSetRecords_unreg t hlk _ _
      have hstep := rrsetStep_mkRRSetEl_err [] nm t ((v :: vs).map mkResourceRecordEl)
        (.keyError t) hnm hrd
      simp only [exceptFoldlM, hstep]
    · intro r hr
      simp at hr
      subst hr
      rfl

theorem unrecognized_type_with_records_fails_witness :
    handle_list_resource_record_sets
        (mkListRRDoc [mkRRSetEl "example.com" "MX" [mkResourceRecordEl "10 mail.example.com"]])
      = .error (.keyError "MX")
    ∧ handle_list_resource_record_sets
        (mkListRRDoc [mkRRSetEl "example.com" "MX" [mkResourceRecordEl "10 mail.example.com"]])
      ≠ .ok [] :=
  ⟨(unrecognized_type_with_records_fails.2 "example.com" "MX" ["10 mail.example.com"]
      (by decide) (by decide) (by decide)).1,
   unrecognized_type_with_records_fails.1
     (mkListRRDoc [mkRRSetEl "example.com" "MX" [mkResourceRecordEl "10 mail.example.com"]])
     (by decide) []⟩

/-- C1 counterexample: a ResourceRecordSet whose Type text "MX" has no
registered decoding capability but which contains no ResourceRecord child
does NOT fail the operation: the registry lookup sits inside the
per-record set comprehension, which never runs, and the result is a
mapping with an entry for the name holding the empty record set. -/
theorem unrecognized_type_empty_records_accepted :
    hasUnregisteredTypeText (mkRRSetEl "example.com" "MX" []) = true
    ∧ handle_list_resource_record_sets (mkListRRDoc [mkRRSetEl "example.com" "MX" []])
        = .ok [(⟨"example.com"⟩, ∅)] := by
  exact ⟨by decide, by decide⟩

/-- C9: the result mapping of list_resource_record_sets is keyed by Name
alone — two ResourceRecordSet elements sharing a Name but carrying
different Type texts merge into a single entry whose record set is the
union of the records decoded from both, and the key (a Name) retains no
Type information. -/
theorem rrset_mapping_keyed_by_name_union :
    ∀ (nm t1 t2 : String) (vs1 vs2 : List String) (s1 s2 : Finset Rec),
      nm ≠ "" → t1 ≠ t2 →
      decodeRRSetRecords (some t1) (vs1.map mkResourceRecordEl) = .ok s1 →
      decodeRRSetRecords (some t2) (vs2.map mkResourceRecordEl) = .ok s2 →
      handle_list_resource_record_sets
          (mkListRRDoc [mkRRSetEl nm t1 (vs1.map mkResourceRecordEl),
                        mkRRSetEl nm t2 (vs2.map mkResourceRecordEl)])
        = .ok [(⟨nm⟩, s1 ∪ s2)] := by
  intro nm t1 t2 vs1 vs2 s1 s2 hnm _hne hd1 hd2
  unfold handle_list_resource_record_sets
  rw [iterfind_mkListRRDoc]
  · have h1 := rrsetStep_mkRRSetEl_ok [] nm t1 (vs1.map mkResourceRecordEl) s1 hnm
      (by rw [filter_map_rr]; exact hd1)
    have h2 := rrsetStep_mkRRSetEl_ok (setdefaultUpdate [] ⟨nm⟩ s1) nm t2
      (vs2.map mkResourceRecordEl) s2 hnm (by rw [filter_map_rr]; exact hd2)
    simp only [exceptFoldlM, h1, h2]
    simp [setdefaultUpdate]
  · intro r hr
    simp at hr
    rcases hr with h | h <;> subst h <;> rfl

theorem rrset_mapping_keyed_by_name_union_witness :
    handle_list_resource_record_sets
        (mkListRRDoc [mkRRSetEl "example.com" "NS" [mkResourceRecordEl "ns1.example.com"],
                      mkRRSetEl "example.com" "CNAME" [mkResourceRecordEl "cn.example.com"]])
      = .ok [(⟨"example.com"⟩,
              ({Rec.ns ⟨⟨"ns1.example.com"⟩⟩} : Finset Rec) ∪ {Rec.cname ⟨⟨"cn.example.com"⟩⟩})] :=
  rrset_mapping_keyed_by_name_union "example.com" "NS" "CNAME"
    ["ns1.example.com"] ["cn.example.com"]
    {Rec.ns ⟨⟨"ns1.example.com"⟩⟩} {Rec.cname ⟨⟨"cn.example.com"⟩⟩}
    (by decide) (by decide) (by decide) (by decide)
